import Mathlib

/-!
# Verification of the Cantina order/payment/debt consistency engine

Shallow embedding of the core database operations of `src/server/db.ts`
(`createOrder`, `updatePaymentStatus`, `markDebtAsPaid`,
`recalculateCustomerDebt`, `updateCustomerTotals`), of `cancelOrder` from the
logging variant of the db module (`src/server/auth.test.ts`), and of the PIX
payload encoder of `src/server/pix.ts`.

The relational store is modelled as lists of rows; each SQL statement of the
source becomes one pure update on the state, threaded in source order.
Money columns are `decimal(10,2)`; every amount that crosses the core is a
2-decimal string, so amounts are embedded as integer cents (`Int`), which the
exact numeric arithmetic of the store preserves.
-/

namespace Cantina

/-- `paymentMethod` enum of the `orders` table. -/
inductive PaymentMethod where
  | pix
  | dinheiro
  | cartao
  | fiado
  deriving DecidableEq, Repr

/-- `paymentStatus` enum of the `orders` table. -/
inductive PaymentStatus where
  | pendente
  | pago
  | cancelado
  deriving DecidableEq, Repr

/-- `orderStatus` enum of the `orders` table. -/
inductive OrderStatus where
  | aguardando_pagamento
  | em_preparo
  | pronto
  | entregue
  | cancelado
  deriving DecidableEq, Repr

/-- A row of the `customers` table (money columns in cents). -/
structure Customer where
  id : Nat
  name : String
  phone : String
  totalSpent : Int
  totalDebt : Int
  deriving DecidableEq, Repr

/-- A row of the `orders` table.  `createdAt` is an abstract timestamp used
only by the `createdAt >= today` filter of `getNextOrderNumber`. -/
structure Order where
  id : Nat
  customerId : Nat
  orderNumber : Nat
  totalAmount : Int
  paymentMethod : PaymentMethod
  paymentStatus : PaymentStatus
  orderStatus : OrderStatus
  createdAt : Nat
  deriving DecidableEq, Repr

/-- A row of the `order_items` table (primary key omitted: no operation of the
core reads it). -/
structure OrderItem where
  orderId : Nat
  productId : Nat
  productName : String
  quantity : Nat
  unitPrice : Int
  flavor : Option String
  subtotal : Int
  deriving DecidableEq, Repr

/-- A row of the `debts` table. -/
structure Debt where
  id : Nat
  customerId : Nat
  orderId : Nat
  amount : Int
  isPaid : Bool
  paidAt : Option Nat
  deriving DecidableEq, Repr

/-- The relational store: the four tables the consistency engine mutates. -/
structure DB where
  customers : List Customer
  orders : List Order
  orderItems : List OrderItem
  debts : List Debt
  deriving DecidableEq, Repr

/-- `getCustomerById` (db.ts:169): `SELECT ... WHERE id = ? LIMIT 1`. -/
def getCustomerById (db : DB) (id : Nat) : Option Customer :=
  db.customers.find? (fun c => c.id == id)

/-- `updateCustomerTotals` (db.ts:197): additive update
`totalSpent = totalSpent + amountSpent, totalDebt = totalDebt + amountDebt`
on the row with the given id. -/
def updateCustomerTotals (db : DB) (customerId : Nat)
    (amountSpent amountDebt : Int) : DB :=
  { db with
    customers := db.customers.map (fun c =>
      if c.id == customerId then
        { c with totalSpent := c.totalSpent + amountSpent,
                 totalDebt := c.totalDebt + amountDebt }
      else c) }

/-- The aggregate `COALESCE(SUM(amount), 0) WHERE customerId = ? AND isPaid = false`
read by `recalculateCustomerDebt` (db.ts:215). -/
def sumUnpaidDebts (db : DB) (customerId : Nat) : Int :=
  ((db.debts.filter (fun d => d.customerId == customerId && !d.isPaid)).map
    (fun d => d.amount)).sum

/-- `recalculateCustomerDebt` (db.ts:210): overwrites the customer's
`totalDebt` with the exact sum of that customer's unpaid debt amounts. -/
def recalculateCustomerDebt (db : DB) (customerId : Nat) : DB :=
  let totalDebt := sumUnpaidDebts db customerId
  { db with
    customers := db.customers.map (fun c =>
      if c.id == customerId then { c with totalDebt := totalDebt } else c) }

/-- `getNextOrderNumber` (db.ts:281): `1 + MAX(orderNumber)` over orders with
`createdAt >= today`, where a null aggregate counts as `0`. -/
def getNextOrderNumber (db : DB) (today : Nat) : Nat :=
  (((db.orders.filter (fun o => today ≤ o.createdAt)).map
    (fun o => o.orderNumber)).foldl max 0) + 1

/-- The request body of `createOrder` (the `Omit<InsertOrder,'orderNumber'>`
argument): it may carry a caller-requested `paymentStatus`, which the insert
overrides.  `createdAt` stands for the `defaultNow()` timestamp the store
assigns to the inserted row. -/
structure OrderReq where
  customerId : Nat
  totalAmount : Int
  paymentMethod : PaymentMethod
  paymentStatus : PaymentStatus
  createdAt : Nat
  deriving DecidableEq, Repr

/-- An element of the `items` argument of `createOrder` (no `orderId` yet). -/
structure ItemReq where
  productId : Nat
  productName : String
  quantity : Nat
  unitPrice : Int
  flavor : Option String
  subtotal : Int
  deriving DecidableEq, Repr

/-- `createOrder` (db.ts:296).  `oid` and `did` stand for the autoincrement
primary keys the store assigns to the inserted order and debt rows; `today` is
the local-midnight bound used by `getNextOrderNumber`.  Throwing
`"Cliente não encontrado"` is modelled as an `Except.error` result paired with
the unchanged state (the throw happens before any write). -/
def createOrder (db : DB) (req : OrderReq) (items : List ItemReq)
    (oid did today : Nat) : Except String Nat × DB :=
  match getCustomerById db req.customerId with
  | none => (.error "Cliente não encontrado", db)
  | some _ =>
    let orderNumber := getNextOrderNumber db today
    let db1 := { db with
      orders := db.orders ++ [{
        id := oid,
        customerId := req.customerId,
        orderNumber := orderNumber,
        totalAmount := req.totalAmount,
        paymentMethod := req.paymentMethod,
        paymentStatus := .pendente,
        orderStatus := .aguardando_pagamento,
        createdAt := req.createdAt }] }
    let db2 :=
      if items.length > 0 then
        { db1 with
          orderItems := db1.orderItems ++ items.map (fun it => {
            orderId := oid,
            productId := it.productId,
            productName := it.productName,
            quantity := it.quantity,
            unitPrice := it.unitPrice,
            flavor := it.flavor,
            subtotal := it.subtotal }) }
      else db1
    if req.paymentMethod == .fiado then
      let db3 := { db2 with
        debts := db2.debts ++ [{
          id := did,
          customerId := req.customerId,
          orderId := oid,
          amount := req.totalAmount,
          isPaid := false,
          paidAt := none }] }
      let db4 := updateCustomerTotals db3 req.customerId 0 req.totalAmount
      (.ok oid, db4)
    else
      (.ok oid, db2)

/-- `updatePaymentStatus` (db.ts:421): writes the new `paymentStatus`, then for
pay-later orders synchronises the debt row and the customer totals (with
`GREATEST(..., 0)` floors), and for other methods adjusts `totalSpent` guarded
by the previous status.  A missing order id silently returns.  `now` is the
wall-clock value stored into `paidAt`. -/
def updatePaymentStatus (db : DB) (id : Nat) (status : PaymentStatus)
    (now : Nat) : DB :=
  match db.orders.find? (fun o => o.id == id) with
  | none => db
  | some order =>
    let previousStatus := order.paymentStatus
    let db1 := { db with
      orders := db.orders.map (fun o =>
        if o.id == id then { o with paymentStatus := status } else o) }
    if order.paymentMethod == .fiado then
      match db1.debts.find? (fun d => d.orderId == id) with
      | none => db1
      | some debt =>
        if status == .pago && !debt.isPaid then
          let db2 := { db1 with
            debts := db1.debts.map (fun (d : Debt) =>
              if d.id == debt.id then
                { d with isPaid := true, paidAt := some now }
              else d) }
          { db2 with
            customers := db2.customers.map (fun (c : Customer) =>
              if c.id == order.customerId then
                { c with totalDebt := max (c.totalDebt - debt.amount) 0,
                         totalSpent := c.totalSpent + debt.amount }
              else c) }
        else if status == .pendente && debt.isPaid then
          let db2 := { db1 with
            debts := db1.debts.map (fun (d : Debt) =>
              if d.id == debt.id then
                { d with isPaid := false, paidAt := none }
              else d) }
          { db2 with
            customers := db2.customers.map (fun (c : Customer) =>
              if c.id == order.customerId then
                { c with totalDebt := c.totalDebt + debt.amount,
                         totalSpent := max (c.totalSpent - debt.amount) 0 }
              else c) }
        else db1
    else
      if status == .pago && previousStatus != .pago then
        { db1 with
          customers := db1.customers.map (fun (c : Customer) =>
            if c.id == order.customerId then
              { c with totalSpent := c.totalSpent + order.totalAmount }
            else c) }
      else if status == .pendente && previousStatus == .pago then
        { db1 with
          customers := db1.customers.map (fun (c : Customer) =>
            if c.id == order.customerId then
              { c with totalSpent := max (c.totalSpent - order.totalAmount) 0 }
            else c) }
      else db1

/-- `markDebtAsPaid` (db.ts:538): no-op when the debt id is unknown or the debt
is already paid; otherwise marks the debt paid, sets the owning order's
`paymentStatus` to `pago` and applies the customer-total delta (the trailing
event emission is the excluded notification sink). -/
def markDebtAsPaid (db : DB) (debtId : Nat) (now : Nat) : DB :=
  match db.debts.find? (fun d => d.id == debtId) with
  | none => db
  | some debt =>
    if debt.isPaid then db
    else
      let db1 := { db with
        debts := db.debts.map (fun (d : Debt) =>
          if d.id == debtId then { d with isPaid := true, paidAt := some now }
          else d) }
      let db2 := { db1 with
        orders := db1.orders.map (fun (o : Order) =>
          if o.id == debt.orderId then { o with paymentStatus := .pago }
          else o) }
      { db2 with
        customers := db2.customers.map (fun (c : Customer) =>
          if c.id == debt.customerId then
            { c with totalDebt := max (c.totalDebt - debt.amount) 0,
                     totalSpent := c.totalSpent + debt.amount }
          else c) }

/-- `cancelOrder` (auth.test.ts:743): no-op when the order id is unknown;
otherwise sets `orderStatus = cancelado`, and for a pay-later order whose first
matching debt is still unpaid, deletes the debt rows of the order and applies
the plain additive delta `updateCustomerTotals(customerId, 0, -totalAmount)`. -/
def cancelOrder (db : DB) (orderId : Nat) : DB :=
  match db.orders.find? (fun o => o.id == orderId) with
  | none => db
  | some order =>
    let db1 := { db with
      orders := db.orders.map (fun o =>
        if o.id == orderId then { o with orderStatus := .cancelado } else o) }
    if order.paymentMethod == .fiado then
      match db1.debts.find? (fun d => d.orderId == orderId) with
      | none => db1
      | some debt =>
        if !debt.isPaid then
          let db2 := { db1 with
            debts := db1.debts.filter (fun (d : Debt) => !(d.orderId == orderId)) }
          updateCustomerTotals db2 order.customerId 0 (-order.totalAmount)
        else db1
    else db1

/-! ## PIX payload encoder (`src/server/pix.ts`) -/

/-- JS `n.toString().padStart(2, "0")` for a natural length. -/
def pad2 (n : Nat) : String :=
  if n < 10 then "0" ++ toString n else toString n

/-- JS `amount.toFixed(2)` for an amount given in cents (the amounts the
callers pass are exact 2-decimal values, for which `toFixed(2)` renders the
integer and the two fractional digits). -/
def toFixed2 (cents : Nat) : String :=
  toString (cents / 100) ++ "." ++ pad2 (cents % 100)

/-- A hexadecimal digit, uppercase (JS `toString(16).toUpperCase()` digit). -/
def hexDigitUpper (n : Nat) : Char :=
  "0123456789ABCDEF".data.getD n '0'

/-- Digit recursion of `toHexUpper`, structural on a fuel bound (`fuel`
dominates the number of base-16 digits, so the fallback branch is never the
one that fires for the actual argument `n ≤ fuel`). -/
def toHexUpperAux : Nat → Nat → List Char
  | 0, n => [hexDigitUpper n]
  | fuel + 1, n =>
    if n < 16 then [hexDigitUpper n]
    else toHexUpperAux fuel (n / 16) ++ [hexDigitUpper (n % 16)]

/-- JS `n.toString(16).toUpperCase()` for a natural number. -/
def toHexUpper (n : Nat) : String :=
  String.mk (toHexUpperAux n n)

/-- JS `s.padStart(4, "0")`. -/
def padStart4 (s : String) : String :=
  String.mk (List.replicate (4 - s.data.length) '0' ++ s.data)

/-- One iteration of the inner bit loop of `calculateCRC16` (pix.ts:107-114).
JS numbers pass through `ToInt32` at each `<<=`, i.e. the state lives modulo
2^32; the sign bit is never observed (`>> 15 & 1` reads bit 15 and the final
mask keeps bits 0-15), so the unsigned residue is the faithful state. -/
def crc16UpdateBit (crc : Nat) (bit : Bool) : Nat :=
  let c15 := crc / 0x8000 % 2 == 1
  let crc1 := crc * 2 % 0x100000000
  if c15 != bit then crc1 ^^^ 0x1021 else crc1

/-- The byte loop of `calculateCRC16`: bits MSB-first (`byte >> (7-j) & 1`). -/
def crc16UpdateByte (crc byte : Nat) : Nat :=
  (List.range 8).foldl (fun c j => crc16UpdateBit c (byte / 2 ^ (7 - j) % 2 == 1)) crc

/-- The character loop of `calculateCRC16` (pix.ts:105-115), from a given
starting state. -/
def crc16Fold (crc : Nat) (l : List Char) : Nat :=
  l.foldl (fun c ch => crc16UpdateByte c ch.toNat) crc

/-- `calculateCRC16` (pix.ts:101): CRC16-CCITT, init `0xFFFF`, polynomial
`0x1021`, over `charCodeAt` of every character, final `crc &= 0xffff` then
`crc ^ 0xffff`. -/
def calculateCRC16 (data : String) : Nat :=
  (crc16Fold 0xFFFF data.data % 0x10000) ^^^ 0xFFFF

/-- JS `String.prototype.replace` with a plain-string pattern: replaces the
first occurrence only (pix.ts:88). -/
def replaceFirstL (pat repl : List Char) : List Char → List Char
  | [] => []
  | c :: rest =>
    if pat.isPrefixOf (c :: rest) then repl ++ (c :: rest).drop pat.length
    else c :: replaceFirstL pat repl rest

/-- String wrapper for `replaceFirstL`. -/
def jsReplaceFirst (s pat repl : String) : String :=
  String.mk (replaceFirstL pat.data repl.data s.data)

/-- The argument record of `generatePixPayload` (pix.ts:6).  `amount` is in
cents; the source's truthiness test `amount ? ... : ""` is false exactly at 0
for the non-negative 2-decimal amounts the callers supply. -/
structure PixData where
  pixKey : String
  description : String
  merchantName : String
  merchantCity : String
  amount : Nat
  transactionId : Option String
  deriving DecidableEq, Repr

/-- The tag-62 additional-data field as the source builds it (pix.ts:65):
`` `6207${txIdLength}05${txIdLength}${txId}` ``. -/
def additionalDataField (txId : String) : String :=
  "6207" ++ pad2 txId.length ++ "05" ++ pad2 txId.length ++ txId

/-- Modelled from the spec: the tag-62 additional-data field as §4.3 words it
("the outer tag's length covering the nested field including its own 2-digit
tag+length header"), for comparison with `additionalDataField`. -/
def specAdditionalDataField (txId : String) : String :=
  "62" ++ pad2 (txId.length + 4) ++ "05" ++ pad2 txId.length ++ txId

/-- Everything `generatePixPayload` concatenates before the `"6304"` CRC
placeholder (pix.ts:29-65 and 71-80).  `genId` stands for the value
`generateTransactionId()` would produce; the source's `transactionId ||
generateTransactionId()` falls back on it when the caller passes nothing or
the empty string. -/
def pixPayloadBody (data : PixData) (genId : String) : String :=
  let payloadFormatIndicator := "000201"
  let gui := "0014br.gov.bcb.pix"
  let keyLength := pad2 data.pixKey.length
  let pixKeyData := "01" ++ keyLength ++ data.pixKey
  let merchantAccountInfo :=
    "26" ++ pad2 (gui ++ pixKeyData).length ++ gui ++ pixKeyData
  let merchantCategoryCode := "52040000"
  let transactionCurrency := "5303986"
  let transactionAmount :=
    if data.amount ≠ 0 then
      "54" ++ pad2 (toFixed2 data.amount).length ++ toFixed2 data.amount
    else ""
  let countryCode := "5802BR"
  let merchantNameData :=
    "59" ++ pad2 data.merchantName.length ++ data.merchantName
  let merchantCityData :=
    "60" ++ pad2 data.merchantCity.length ++ data.merchantCity
  let txId := match data.transactionId with
    | some t => if t = "" then genId else t
    | none => genId
  let additionalData := additionalDataField txId
  payloadFormatIndicator ++ merchantAccountInfo ++ merchantCategoryCode ++
    transactionCurrency ++ transactionAmount ++ countryCode ++
    merchantNameData ++ merchantCityData ++ additionalData

/-- `generatePixPayload` (pix.ts:18): appends the `"6304"` placeholder,
computes the CRC over the whole string, renders it as 4 uppercase zero-padded
hex digits and substitutes the first `"6304"` occurrence. -/
def generatePixPayload (data : PixData) (genId : String) : String :=
  let payloadWithoutCrc := pixPayloadBody data genId ++ "6304"
  let crc := calculateCRC16 payloadWithoutCrc
  let crcHex := padStart4 (toHexUpper crc)
  jsReplaceFirst payloadWithoutCrc "6304" ("6304" ++ crcHex)

/-! ## Invariants and reachability -/

/-- Substring test (position-wise) used to state facts about payload bytes. -/
def containsSubstr (pat s : String) : Bool :=
  (List.range (s.data.length + 1)).any (fun i => pat.data.isPrefixOf (s.data.drop i))

/-- Well-formedness the store's autoincrement primary keys guarantee: order
ids are unique, debt ids are unique, and (each pay-later order creating
exactly one debt) no two debt rows reference the same order. -/
def WF (db : DB) : Prop :=
  (db.orders.map (fun o => o.id)).Nodup ∧
  (db.debts.map (fun d => d.id)).Nodup ∧
  (db.debts.map (fun d => d.orderId)).Nodup

instance (db : DB) : Decidable (WF db) := by unfold WF; infer_instance

/-- The debt-mirror property P1: a pay-later order is `pago` exactly when its
debt row is paid. -/
def Mirror (db : DB) : Prop :=
  ∀ o ∈ db.orders, ∀ d ∈ db.debts,
    d.orderId = o.id → o.paymentMethod = .fiado →
      (o.paymentStatus = .pago ↔ d.isPaid = true)

instance (db : DB) : Decidable (Mirror db) := by unfold Mirror; infer_instance

/-- One core operation, with `updatePaymentStatus` restricted to the
`pendente`/`pago` targets.  The `create` constructor carries the freshness of
the autoincrement keys the store assigns. -/
inductive StepNC : DB → DB → Prop where
  | create (db : DB) (req : OrderReq) (items : List ItemReq)
      (oid did today : Nat)
      (hoid : ∀ o ∈ db.orders, o.id ≠ oid)
      (hdo : ∀ d ∈ db.debts, d.orderId ≠ oid)
      (hdid : ∀ d ∈ db.debts, d.id ≠ did) :
      StepNC db (createOrder db req items oid did today).2
  | payment (db : DB) (id : Nat) (status : PaymentStatus) (now : Nat)
      (hs : status ≠ .cancelado) :
      StepNC db (updatePaymentStatus db id status now)
  | markPaid (db : DB) (debtId now : Nat) :
      StepNC db (markDebtAsPaid db debtId now)
  | cancel (db : DB) (orderId : Nat) :
      StepNC db (cancelOrder db orderId)
  | recalc (db : DB) (customerId : Nat) :
      StepNC db (recalculateCustomerDebt db customerId)

/-- Reachability by sequences of core operations that never pass `cancelado`
to `updatePaymentStatus`. -/
def ReachableNC : DB → DB → Prop := Relation.ReflTransGen StepNC

/-! ## Concrete states used by counterexamples and witnesses -/

/-- A store holding one customer and nothing else. -/
def db0 : DB :=
  { customers := [{ id := 1, name := "Ana", phone := "11999990000",
                    totalSpent := 0, totalDebt := 0 }],
    orders := [], orderItems := [], debts := [] }

/-- A pay-later request for 11.00 by customer 1. -/
def reqFiado : OrderReq :=
  { customerId := 1, totalAmount := 1100, paymentMethod := .fiado,
    paymentStatus := .pendente, createdAt := 5 }

/-- `db0` after creating the pay-later order (order id 1, debt id 1). -/
def dbCreated : DB := (createOrder db0 reqFiado [] 1 1 0).2

/-- `dbCreated` after the admin confirms payment. -/
def dbPaid : DB := updatePaymentStatus dbCreated 1 .pago 20

/-- `dbPaid` after `updatePaymentStatus(1, 'cancelado')`: the state on which
the debt-mirror invariant breaks. -/
def dbCancelled : DB := updatePaymentStatus dbPaid 1 .cancelado 30

/-- A store where the customer's recorded `totalDebt` (5.00) is smaller than
the unpaid debt of their open 11.00 pay-later order (drifted state). -/
def dbDrift : DB :=
  { customers := [{ id := 1, name := "Ana", phone := "11999990000",
                    totalSpent := 0, totalDebt := 500 }],
    orders := [{ id := 1, customerId := 1, orderNumber := 1,
                 totalAmount := 1100, paymentMethod := .fiado,
                 paymentStatus := .pendente,
                 orderStatus := .aguardando_pagamento, createdAt := 5 }],
    orderItems := [],
    debts := [{ id := 1, customerId := 1, orderId := 1, amount := 1100,
                isPaid := false, paidAt := none }] }

/-- The PIX input of the CRC counterexample: the key itself contains the
placeholder bytes `"6304"`. -/
def pixDataCE : PixData := ⟨"6304", "", "N", "C", 0, some "T"⟩

/-- One core operation with no restriction on the `updatePaymentStatus`
target (the full operation set named by the debt-mirror claim). -/
inductive StepAll : DB → DB → Prop where
  | create (db : DB) (req : OrderReq) (items : List ItemReq)
      (oid did today : Nat)
      (hoid : ∀ o ∈ db.orders, o.id ≠ oid)
      (hdo : ∀ d ∈ db.debts, d.orderId ≠ oid)
      (hdid : ∀ d ∈ db.debts, d.id ≠ did) :
      StepAll db (createOrder db req items oid did today).2
  | payment (db : DB) (id : Nat) (status : PaymentStatus) (now : Nat) :
      StepAll db (updatePaymentStatus db id status now)
  | markPaid (db : DB) (debtId now : Nat) :
      StepAll db (markDebtAsPaid db debtId now)
  | cancel (db : DB) (orderId : Nat) :
      StepAll db (cancelOrder db orderId)
  | recalc (db : DB) (customerId : Nat) :
      StepAll db (recalculateCustomerDebt db customerId)

/-- Conjunction of the store well-formedness and the debt-mirror property:
the invariant carried through the reachability induction. -/
def CoreInv (db : DB) : Prop := WF db ∧ Mirror db

/-- The order row `createOrder` inserts into `db0` for `reqFiado`. -/
def orderRec : Order :=
  { id := 1, customerId := 1, orderNumber := 1, totalAmount := 1100,
    paymentMethod := .fiado, paymentStatus := .pendente,
    orderStatus := .aguardando_pagamento, createdAt := 5 }

/-- The debt row `createOrder` inserts into `db0` for `reqFiado`. -/
def debtRec : Debt :=
  { id := 1, customerId := 1, orderId := 1, amount := 1100,
    isPaid := false, paidAt := none }

/-- The customer row of `dbCreated` (totalDebt already increased by 11.00). -/
def custRec : Customer :=
  { id := 1, name := "Ana", phone := "11999990000",
    totalSpent := 0, totalDebt := 1100 }

/-- A PIX input whose amount is Scenario E's 18.00 and whose payload contains
no stray `"6304"` bytes. -/
def pixDataW : PixData := ⟨"k", "", "N", "C", 1800, some "TX123"⟩

/-! ## Symbolic execution of the operations, branch by branch -/

theorem markDebtAsPaid_of_none (db : DB) (debtId now : Nat)
    (hf : db.debts.find? (fun d => d.id == debtId) = none) :
    markDebtAsPaid db debtId now = db := by
  unfold markDebtAsPaid; rw [hf]

theorem markDebtAsPaid_of_paid (db : DB) (debtId now : Nat) (debt : Debt)
    (hf : db.debts.find? (fun d => d.id == debtId) = some debt)
    (hp : debt.isPaid = true) :
    markDebtAsPaid db debtId now = db := by
  unfold markDebtAsPaid; rw [hf]; simp [hp]

theorem markDebtAsPaid_of_unpaid (db : DB) (debtId now : Nat) (debt : Debt)
    (hf : db.debts.find? (fun d => d.id == debtId) = some debt)
    (hp : debt.isPaid = false) :
    markDebtAsPaid db debtId now = { db with
      debts := db.debts.map (fun (d : Debt) =>
        if d.id == debtId then { d with isPaid := true, paidAt := some now } else d),
      orders := db.orders.map (fun (o : Order) =>
        if o.id == debt.orderId then { o with paymentStatus := .pago } else o),
      customers := db.customers.map (fun (c : Customer) =>
        if c.id == debt.customerId then
          { c with totalDebt := max (c.totalDebt - debt.amount) 0,
                   totalSpent := c.totalSpent + debt.amount }
        else c) } := by
  unfold markDebtAsPaid; rw [hf]; simp [hp]

theorem updatePaymentStatus_of_none (db : DB) (id : Nat) (status : PaymentStatus) (now : Nat)
    (hf : db.orders.find? (fun o => o.id == id) = none) :
    updatePaymentStatus db id status now = db := by
  unfold updatePaymentStatus; rw [hf]

theorem updatePaymentStatus_fiado_nodebt (db : DB) (id : Nat) (status : PaymentStatus)
    (now : Nat) (order : Order)
    (hf : db.orders.find? (fun o => o.id == id) = some order)
    (hm : order.paymentMethod = .fiado)
    (hd : db.debts.find? (fun d => d.orderId == id) = none) :
    updatePaymentStatus db id status now = { db with
      orders := db.orders.map (fun (o : Order) =>
        if o.id == id then { o with paymentStatus := status } else o) } := by
  unfold updatePaymentStatus; rw [hf]; simp [hm, hd]

theorem updatePaymentStatus_fiado_pago_unpaid (db : DB) (id now : Nat)
    (order : Order) (debt : Debt)
    (hf : db.orders.find? (fun o => o.id == id) = some order)
    (hm : order.paymentMethod = .fiado)
    (hd : db.debts.find? (fun d => d.orderId == id) = some debt)
    (hp : debt.isPaid = false) :
    updatePaymentStatus db id .pago now = { db with
      orders := db.orders.map (fun (o : Order) =>
        if o.id == id then { o with paymentStatus := .pago } else o),
      debts := db.debts.map (fun (d : Debt) =>
        if d.id == debt.id then { d with isPaid := true, paidAt := some now } else d),
      customers := db.customers.map (fun (c : Customer) =>
        if c.id == order.customerId then
          { c with totalDebt := max (c.totalDebt - debt.amount) 0,
                   totalSpent := c.totalSpent + debt.amount }
        else c) } := by
  unfold updatePaymentStatus; rw [hf]; simp [hm, hd, hp]

theorem updatePaymentStatus_fiado_pendente_paid (db : DB) (id now : Nat)
    (order : Order) (debt : Debt)
    (hf : db.orders.find? (fun o => o.id == id) = some order)
    (hm : order.paymentMethod = .fiado)
    (hd : db.debts.find? (fun d => d.orderId == id) = some debt)
    (hp : debt.isPaid = true) :
    updatePaymentStatus db id .pendente now = { db with
      orders := db.orders.map (fun (o : Order) =>
        if o.id == id then { o with paymentStatus := .pendente } else o),
      debts := db.debts.map (fun (d : Debt) =>
        if d.id == debt.id then { d with isPaid := false, paidAt := none } else d),
      customers := db.customers.map (fun (c : Customer) =>
        if c.id == order.customerId then
          { c with totalDebt := c.totalDebt + debt.amount,
                   totalSpent := max (c.totalSpent - debt.amount) 0 }
        else c) } := by
  unfold updatePaymentStatus; rw [hf]; simp [hm, hd, hp]

theorem updatePaymentStatus_fiado_frozen (db : DB) (id : Nat) (status : PaymentStatus)
    (now : Nat) (order : Order) (debt : Debt)
    (hf : db.orders.find? (fun o => o.id == id) = some order)
    (hm : order.paymentMethod = .fiado)
    (hd : db.debts.find? (fun d => d.orderId == id) = some debt)
    (h1 : ¬(status = .pago ∧ debt.isPaid = false))
    (h2 : ¬(status = .pendente ∧ debt.isPaid = true)) :
    updatePaymentStatus db id status now = { db with
      orders := db.orders.map (fun (o : Order) =>
        if o.id == id then { o with paymentStatus := status } else o) } := by
  unfold updatePaymentStatus
  rw [hf]
  have hb1 : (status == .pago && !debt.isPaid) = false := by
    rcases Decidable.em (status = .pago) with h | h <;> rcases hp : debt.isPaid with _ | _ <;>
      simp_all
  have hb2 : (status == .pendente && debt.isPaid) = false := by
    rcases Decidable.em (status = .pendente) with h | h <;> rcases hp : debt.isPaid with _ | _ <;>
      simp_all
  simp [hm, hd, hb1, hb2]

theorem updatePaymentStatus_nonfiado_pago (db : DB) (id now : Nat) (order : Order)
    (hf : db.orders.find? (fun o => o.id == id) = some order)
    (hm : order.paymentMethod ≠ .fiado)
    (hprev : order.paymentStatus ≠ .pago) :
    updatePaymentStatus db id .pago now = { db with
      orders := db.orders.map (fun (o : Order) =>
        if o.id == id then { o with paymentStatus := .pago } else o),
      customers := db.customers.map (fun (c : Customer) =>
        if c.id == order.customerId then
          { c with totalSpent := c.totalSpent + order.totalAmount }
        else c) } := by
  unfold updatePaymentStatus; rw [hf]
  have hb : (order.paymentMethod == PaymentMethod.fiado) = false := by simpa using hm
  simp [hb, hprev]

theorem updatePaymentStatus_nonfiado_revert (db : DB) (id now : Nat) (order : Order)
    (hf : db.orders.find? (fun o => o.id == id) = some order)
    (hm : order.paymentMethod ≠ .fiado)
    (hprev : order.paymentStatus = .pago) :
    updatePaymentStatus db id .pendente now = { db with
      orders := db.orders.map (fun (o : Order) =>
        if o.id == id then { o with paymentStatus := .pendente } else o),
      customers := db.customers.map (fun (c : Customer) =>
        if c.id == order.customerId then
          { c with totalSpent := max (c.totalSpent - order.totalAmount) 0 }
        else c) } := by
  unfold updatePaymentStatus; rw [hf]
  have hb : (order.paymentMethod == PaymentMethod.fiado) = false := by simpa using hm
  simp [hb, hprev]

theorem updatePaymentStatus_nonfiado_frozen (db : DB) (id : Nat) (status : PaymentStatus)
    (now : Nat) (order : Order)
    (hf : db.orders.find? (fun o => o.id == id) = some order)
    (hm : order.paymentMethod ≠ .fiado)
    (h1 : ¬(status = .pago ∧ order.paymentStatus ≠ .pago))
    (h2 : ¬(status = .pendente ∧ order.paymentStatus = .pago)) :
    updatePaymentStatus db id status now = { db with
      orders := db.orders.map (fun (o : Order) =>
        if o.id == id then { o with paymentStatus := status } else o) } := by
  unfold updatePaymentStatus; rw [hf]
  have hb : (order.paymentMethod == PaymentMethod.fiado) = false := by simpa using hm
  have hb1 : (status == PaymentStatus.pago && order.paymentStatus != PaymentStatus.pago) = false := by
    rcases Decidable.em (status = .pago) with h | h <;>
      rcases Decidable.em (order.paymentStatus = .pago) with h' | h' <;> simp_all
  have hb2 : (status == PaymentStatus.pendente && order.paymentStatus == PaymentStatus.pago) = false := by
    rcases Decidable.em (status = .pendente) with h | h <;>
      rcases Decidable.em (order.paymentStatus = .pago) with h' | h' <;> simp_all
  simp [hb, hb1, hb2]

theorem cancelOrder_of_none (db : DB) (orderId : Nat)
    (hf : db.orders.find? (fun o => o.id == orderId) = none) :
    cancelOrder db orderId = db := by
  unfold cancelOrder; rw [hf]

theorem cancelOrder_nonfiado (db : DB) (orderId : Nat) (order : Order)
    (hf : db.orders.find? (fun o => o.id == orderId) = some order)
    (hm : order.paymentMethod ≠ .fiado) :
    cancelOrder db orderId = { db with
      orders := db.orders.map (fun (o : Order) =>
        if o.id == orderId then { o with orderStatus := .cancelado } else o) } := by
  unfold cancelOrder; rw [hf]
  have hb : (order.paymentMethod == PaymentMethod.fiado) = false := by simpa using hm
  simp [hb]

theorem cancelOrder_fiado_nodebt (db : DB) (orderId : Nat) (order : Order)
    (hf : db.orders.find? (fun o => o.id == orderId) = some order)
    (hm : order.paymentMethod = .fiado)
    (hd : db.debts.find? (fun d => d.orderId == orderId) = none) :
    cancelOrder db orderId = { db with
      orders := db.orders.map (fun (o : Order) =>
        if o.id == orderId then { o with orderStatus := .cancelado } else o) } := by
  unfold cancelOrder; rw [hf]; simp [hm, hd]

theorem cancelOrder_fiado_paid (db : DB) (orderId : Nat) (order : Order) (debt : Debt)
    (hf : db.orders.find? (fun o => o.id == orderId) = some order)
    (hm : order.paymentMethod = .fiado)
    (hd : db.debts.find? (fun d => d.orderId == orderId) = some debt)
    (hp : debt.isPaid = true) :
    cancelOrder db orderId = { db with
      orders := db.orders.map (fun (o : Order) =>
        if o.id == orderId then { o with orderStatus := .cancelado } else o) } := by
  unfold cancelOrder; rw [hf]; simp [hm, hd, hp]

theorem cancelOrder_fiado_unpaid (db : DB) (orderId : Nat) (order : Order) (debt : Debt)
    (hf : db.orders.find? (fun o => o.id == orderId) = some order)
    (hm : order.paymentMethod = .fiado)
    (hd : db.debts.find? (fun d => d.orderId == orderId) = some debt)
    (hp : debt.isPaid = false) :
    cancelOrder db orderId = { db with
      orders := db.orders.map (fun (o : Order) =>
        if o.id == orderId then { o with orderStatus := .cancelado } else o),
      debts := db.debts.filter (fun (d : Debt) => !(d.orderId == orderId)),
      customers := db.customers.map (fun (c : Customer) =>
        if c.id == order.customerId then
          { c with totalSpent := c.totalSpent + 0,
                   totalDebt := c.totalDebt + -order.totalAmount }
        else c) } := by
  unfold cancelOrder; rw [hf]; simp [hm, hd, hp, updateCustomerTotals]

theorem createOrder_of_noCustomer (db : DB) (req : OrderReq) (items : List ItemReq)
    (oid did today : Nat)
    (hc : db.customers.find? (fun c => c.id == req.customerId) = none) :
    createOrder db req items oid did today = (.error "Cliente não encontrado", db) := by
  unfold createOrder getCustomerById; rw [hc]

theorem createOrder_fiado_eq (db : DB) (req : OrderReq) (items : List ItemReq)
    (oid did today : Nat) (c : Customer)
    (hc : db.customers.find? (fun x => x.id == req.customerId) = some c)
    (hm : req.paymentMethod = .fiado) :
    createOrder db req items oid did today = (.ok oid, { db with
      orders := db.orders ++ [{
        id := oid, customerId := req.customerId,
        orderNumber := getNextOrderNumber db today,
        totalAmount := req.totalAmount, paymentMethod := req.paymentMethod,
        paymentStatus := .pendente, orderStatus := .aguardando_pagamento,
        createdAt := req.createdAt }],
      orderItems := db.orderItems ++ items.map (fun it => {
        orderId := oid, productId := it.productId, productName := it.productName,
        quantity := it.quantity, unitPrice := it.unitPrice, flavor := it.flavor,
        subtotal := it.subtotal }),
      debts := db.debts ++ [{
        id := did, customerId := req.customerId, orderId := oid,
        amount := req.totalAmount, isPaid := false, paidAt := none }],
      customers := db.customers.map (fun (x : Customer) =>
        if x.id == req.customerId then
          { x with totalSpent := x.totalSpent + 0,
                   totalDebt := x.totalDebt + req.totalAmount }
        else x) }) := by
  unfold createOrder getCustomerById
  rw [hc]
  by_cases hi : items.length > 0
  · simp [hi, hm, updateCustomerTotals]
  · have : items = [] := List.length_eq_zero.mp (by omega)
    subst this
    simp [hm, updateCustomerTotals]

theorem createOrder_nonfiado_eq (db : DB) (req : OrderReq) (items : List ItemReq)
    (oid did today : Nat) (c : Customer)
    (hc : db.customers.find? (fun x => x.id == req.customerId) = some c)
    (hm : req.paymentMethod ≠ .fiado) :
    createOrder db req items oid did today = (.ok oid, { db with
      orders := db.orders ++ [{
        id := oid, customerId := req.customerId,
        orderNumber := getNextOrderNumber db today,
        totalAmount := req.totalAmount, paymentMethod := req.paymentMethod,
        paymentStatus := .pendente, orderStatus := .aguardando_pagamento,
        createdAt := req.createdAt }],
      orderItems := db.orderItems ++ items.map (fun it => {
        orderId := oid, productId := it.productId, productName := it.productName,
        quantity := it.quantity, unitPrice := it.unitPrice, flavor := it.flavor,
        subtotal := it.subtotal }) }) := by
  unfold createOrder getCustomerById
  rw [hc]
  have hb : (req.paymentMethod == PaymentMethod.fiado) = false := by simpa using hm
  by_cases hi : items.length > 0
  · simp [hi, hb]
  · have : items = [] := List.length_eq_zero.mp (by omega)
    subst this
    simp [hb]

theorem find?_map_if {α : Type} (key : α → Nat) (f : α → α)
    (hk : ∀ a, key (f a) = key a) (i : Nat) (l : List α) :
    (l.map (fun a => if key a == i then f a else a)).find? (fun a => key a == i)
      = (l.find? (fun a => key a == i)).map f := by
  induction l with
  | nil => rfl
  | cons a l ih =>
    by_cases h : key a = i
    · have hb : (key a == i) = true := beq_iff_eq.mpr h
      have hb2 : (key (f a) == i) = true := by rw [hk]; exact hb
      have e1 : List.find? (fun a => key a == i)
          (f a :: l.map (fun a => if key a == i then f a else a)) = some (f a) :=
        List.find?_cons_of_pos _ hb2
      have e2 : List.find? (fun a => key a == i) (a :: l) = some a :=
        List.find?_cons_of_pos _ hb
      simp only [List.map_cons, hb, if_true]
      rw [e1, e2]
      rfl
    · have hb : (key a == i) = false := by simpa using h
      have e1 : List.find? (fun a => key a == i)
          (a :: l.map (fun a => if key a == i then f a else a))
          = List.find? (fun a => key a == i)
              (l.map (fun a => if key a == i then f a else a)) :=
        List.find?_cons_of_neg _ (by simp [hb])
      have e2 : List.find? (fun a => key a == i) (a :: l)
          = List.find? (fun a => key a == i) l :=
        List.find?_cons_of_neg _ (by simp [hb])
      simp only [List.map_cons, hb, Bool.false_eq_true, if_false]
      rw [e1, e2, ih]

/-- C3: calling `markDebtAsPaid` twice in sequence on the same debt id
produces the same final state as calling it once; in particular the second
call performs no writes, so the customer's `totalSpent`/`totalDebt` change
exactly once across the two calls. -/
theorem c3_idempotent_theorem (db : DB) (debtId n1 n2 : Nat) :
    markDebtAsPaid (markDebtAsPaid db debtId n1) debtId n2
      = markDebtAsPaid db debtId n1 := by
  cases hf : db.debts.find? (fun d => d.id == debtId) with
  | none =>
    rw [markDebtAsPaid_of_none db debtId n1 hf, markDebtAsPaid_of_none db debtId n2 hf]
  | some debt =>
    by_cases hp : debt.isPaid = true
    · rw [markDebtAsPaid_of_paid db debtId n1 debt hf hp,
          markDebtAsPaid_of_paid db debtId n2 debt hf hp]
    · have hp' : debt.isPaid = false := by simpa using hp
      rw [markDebtAsPaid_of_unpaid db debtId n1 debt hf hp']
      refine markDebtAsPaid_of_paid _ debtId n2
        { debt with isPaid := true, paidAt := some n1 } ?_ rfl
      have hm2 := find?_map_if (fun d : Debt => d.id)
        (fun d => { d with isPaid := true, paidAt := some n1 }) (fun a => rfl)
        debtId db.debts
      simp only [] at hm2
      show (db.debts.map _).find? _ = _
      rw [hm2, hf]
      rfl

/-- C6: after `recalculateCustomerDebt(customerId)` the customer's
`totalDebt` equals exactly the sum of `amount` over that customer's unpaid
debt rows (0 when there are none), and no other field of any customer,
order, order-item or debt record is modified. -/
theorem c6_recalculate_theorem (db : DB) (cid : Nat) :
    (recalculateCustomerDebt db cid).orders = db.orders ∧
    (recalculateCustomerDebt db cid).orderItems = db.orderItems ∧
    (recalculateCustomerDebt db cid).debts = db.debts ∧
    List.Forall₂ (fun c c' : Customer =>
      c'.id = c.id ∧ c'.name = c.name ∧ c'.phone = c.phone ∧
      c'.totalSpent = c.totalSpent ∧
      c'.totalDebt = (if c.id = cid then sumUnpaidDebts db cid else c.totalDebt))
      db.customers (recalculateCustomerDebt db cid).customers := by
  refine ⟨rfl, rfl, rfl, ?_⟩
  show List.Forall₂ _ db.customers (db.customers.map _)
  rw [List.forall₂_map_right_iff]
  refine List.forall₂_same.mpr (fun c hc => ?_)
  by_cases h : c.id = cid
  · simp [h, recalculateCustomerDebt]
  · simp [h, beq_iff_eq]

/-- C2: for a pay-later order with an unpaid debt row (the debt tied to the
order and its customer, as `createOrder` creates it), the two entry points
`updatePaymentStatus(orderId, pago)` and `markDebtAsPaid(debtId)` produce the
identical final state — with the same wall clock they are equal states — and
that state has the order `pago`, the debt paid with `paidAt` set, the
customer's `totalDebt` decreased by the debt amount floored at zero and
`totalSpent` increased by it. -/
theorem c2_convergence_theorem (db : DB) (oid now : Nat) (o : Order) (d : Debt) (c : Customer)
    (ho : db.orders.find? (fun x => x.id == oid) = some o)
    (hm : o.paymentMethod = .fiado)
    (hd : db.debts.find? (fun x => x.orderId == oid) = some d)
    (hdid : db.debts.find? (fun x => x.id == d.id) = some d)
    (hu : d.isPaid = false)
    (hcust : d.customerId = o.customerId)
    (hc : db.customers.find? (fun x => x.id == o.customerId) = some c) :
    updatePaymentStatus db oid .pago now = markDebtAsPaid db d.id now ∧
    (markDebtAsPaid db d.id now).orders.find? (fun x => x.id == oid)
      = some { o with paymentStatus := .pago } ∧
    (markDebtAsPaid db d.id now).debts.find? (fun x => x.id == d.id)
      = some { d with isPaid := true, paidAt := some now } ∧
    (markDebtAsPaid db d.id now).customers.find? (fun x => x.id == o.customerId)
      = some { c with totalDebt := max (c.totalDebt - d.amount) 0,
                      totalSpent := c.totalSpent + d.amount } := by
  have hdo : d.orderId = oid := by simpa using List.find?_some hd
  have heq : updatePaymentStatus db oid .pago now = markDebtAsPaid db d.id now := by
    rw [updatePaymentStatus_fiado_pago_unpaid db oid now o d ho hm hd hu,
        markDebtAsPaid_of_unpaid db d.id now d hdid hu]
    simp only [hdo, hcust]
  refine ⟨heq, ?_, ?_, ?_⟩
  · rw [markDebtAsPaid_of_unpaid db d.id now d hdid hu]
    have h1 := find?_map_if (fun x : Order => x.id)
      (fun x => { x with paymentStatus := PaymentStatus.pago }) (fun a => rfl) oid db.orders
    simp only [] at h1
    show (db.orders.map _).find? _ = _
    rw [hdo, h1, ho]
    rfl
  · rw [markDebtAsPaid_of_unpaid db d.id now d hdid hu]
    have h1 := find?_map_if (fun x : Debt => x.id)
      (fun x => { x with isPaid := true, paidAt := some now }) (fun a => rfl) d.id db.debts
    simp only [] at h1
    show (db.debts.map _).find? _ = _
    rw [h1, hdid]
    rfl
  · rw [markDebtAsPaid_of_unpaid db d.id now d hdid hu]
    have h1 := find?_map_if (fun x : Customer => x.id)
      (fun x => { x with totalDebt := max (x.totalDebt - d.amount) 0,
                         totalSpent := x.totalSpent + d.amount }) (fun a => rfl)
      o.customerId db.customers
    simp only [] at h1
    show (db.customers.map _).find? _ = _
    rw [hcust, h1, hc]
    rfl

/-- C4 (amended): for every existing pay-later order, `cancelOrder` sets
`orderStatus` to `cancelado`; when the order's debt row exists and is still
unpaid, the debt rows of the order are deleted and the order's `totalAmount`
is subtracted from the customer's `totalDebt` by a plain additive update —
with no floor at zero, which is what the counterexample shows the claim's
"floored at zero" wording must drop; when the debt was already paid, or no
debt row exists, the debts and customer totals are left unchanged. -/
theorem c4_cancel_theorem (db : DB) (oid : Nat) (o : Order)
    (ho : db.orders.find? (fun x => x.id == oid) = some o)
    (hm : o.paymentMethod = .fiado) :
    (cancelOrder db oid).orders = db.orders.map (fun (x : Order) =>
        if x.id == oid then { x with orderStatus := .cancelado } else x) ∧
    (cancelOrder db oid).orderItems = db.orderItems ∧
    (∀ d, db.debts.find? (fun x => x.orderId == oid) = some d →
      (d.isPaid = false →
        (cancelOrder db oid).debts = db.debts.filter (fun x => !(x.orderId == oid)) ∧
        (cancelOrder db oid).customers = db.customers.map (fun (c : Customer) =>
          if c.id == o.customerId then
            { c with totalDebt := c.totalDebt - o.totalAmount } else c)) ∧
      (d.isPaid = true →
        (cancelOrder db oid).debts = db.debts ∧
        (cancelOrder db oid).customers = db.customers)) ∧
    (db.debts.find? (fun x => x.orderId == oid) = none →
      (cancelOrder db oid).debts = db.debts ∧
      (cancelOrder db oid).customers = db.customers) := by
  cases hd : db.debts.find? (fun x => x.orderId == oid) with
  | none =>
    rw [cancelOrder_fiado_nodebt db oid o ho hm hd]
    exact ⟨rfl, rfl, fun d h => by simp at h, fun h => ⟨rfl, rfl⟩⟩
  | some debt =>
    by_cases hp : debt.isPaid = true
    · rw [cancelOrder_fiado_paid db oid o debt ho hm hd hp]
      refine ⟨rfl, rfl, fun d h => ?_, fun h => Option.noConfusion h⟩
      cases h
      exact ⟨fun h0 => (by rw [h0] at hp; cases hp), fun _ => ⟨rfl, rfl⟩⟩
    · have hp' : debt.isPaid = false := by simpa using hp
      rw [cancelOrder_fiado_unpaid db oid o debt ho hm hd hp']
      refine ⟨rfl, rfl, fun d h => ?_, fun h => Option.noConfusion h⟩
      cases h
      refine ⟨fun _ => ⟨rfl, ?_⟩, fun h1 => (by rw [h1] at hp'; cases hp')⟩
      apply List.map_congr_left
      intro c hc
      by_cases hcid : (c.id == o.customerId) = true
      · simp [hcid, sub_eq_add_neg]
      · simp [hcid]

/-- C5: when the customer exists, `createOrder` inserts the order row with
`paymentStatus = pendente` regardless of the caller-supplied status, and for
`paymentMethod = fiado` it inserts exactly one debt row carrying the order's
`totalAmount` with `isPaid = false` and increases the customer's `totalDebt`
additively by that amount; for other methods it writes no debt and leaves
the customers unchanged. -/
theorem c5_create_theorem (db : DB) (req : OrderReq) (items : List ItemReq)
    (oid did today : Nat) (c : Customer)
    (hc : db.customers.find? (fun x => x.id == req.customerId) = some c) :
    (createOrder db req items oid did today).1 = .ok oid ∧
    (createOrder db req items oid did today).2.orders = db.orders ++ [{
      id := oid, customerId := req.customerId,
      orderNumber := getNextOrderNumber db today,
      totalAmount := req.totalAmount, paymentMethod := req.paymentMethod,
      paymentStatus := .pendente, orderStatus := .aguardando_pagamento,
      createdAt := req.createdAt }] ∧
    (req.paymentMethod = .fiado →
      (createOrder db req items oid did today).2.debts = db.debts ++ [{
        id := did, customerId := req.customerId, orderId := oid,
        amount := req.totalAmount, isPaid := false, paidAt := none }] ∧
      (createOrder db req items oid did today).2.customers
        = db.customers.map (fun (x : Customer) =>
            if x.id == req.customerId then
              { x with totalDebt := x.totalDebt + req.totalAmount } else x)) ∧
    (req.paymentMethod ≠ .fiado →
      (createOrder db req items oid did today).2.debts = db.debts ∧
      (createOrder db req items oid did today).2.customers = db.customers) := by
  by_cases hm : req.paymentMethod = .fiado
  · rw [createOrder_fiado_eq db req items oid did today c hc hm]
    refine ⟨rfl, rfl, fun _ => ⟨rfl, ?_⟩, fun h => absurd hm h⟩
    apply List.map_congr_left
    intro x hx
    by_cases hcid : (x.id == req.customerId) = true
    · simp [hcid]
    · simp [hcid]
  · rw [createOrder_nonfiado_eq db req items oid did today c hc hm]
    exact ⟨rfl, rfl, fun h => absurd h hm, fun _ => ⟨rfl, rfl⟩⟩

/-- C10 (implicit): a create request with an existing customer and an empty
items list does not fail: the order row is inserted (and for pay-later the
debt row and the additive `totalDebt` increase happen), no order-item row is
inserted, and the new order's id is returned. -/
theorem c10_empty_items_theorem (db : DB) (req : OrderReq) (oid did today : Nat) (c : Customer)
    (hc : db.customers.find? (fun x => x.id == req.customerId) = some c) :
    (createOrder db req [] oid did today).1 = .ok oid ∧
    (createOrder db req [] oid did today).2.orderItems = db.orderItems ∧
    (createOrder db req [] oid did today).2.orders = db.orders ++ [{
      id := oid, customerId := req.customerId,
      orderNumber := getNextOrderNumber db today,
      totalAmount := req.totalAmount, paymentMethod := req.paymentMethod,
      paymentStatus := .pendente, orderStatus := .aguardando_pagamento,
      createdAt := req.createdAt }] ∧
    (req.paymentMethod = .fiado →
      (createOrder db req [] oid did today).2.debts = db.debts ++ [{
        id := did, customerId := req.customerId, orderId := oid,
        amount := req.totalAmount, isPaid := false, paidAt := none }] ∧
      (createOrder db req [] oid did today).2.customers
        = db.customers.map (fun (x : Customer) =>
            if x.id == req.customerId then
              { x with totalDebt := x.totalDebt + req.totalAmount } else x)) := by
  by_cases hm : req.paymentMethod = .fiado
  · rw [createOrder_fiado_eq db req [] oid did today c hc hm]
    refine ⟨rfl, by simp, rfl, fun _ => ⟨rfl, ?_⟩⟩
    apply List.map_congr_left
    intro x hx
    by_cases hcid : (x.id == req.customerId) = true
    · simp [hcid]
    · simp [hcid]
  · rw [createOrder_nonfiado_eq db req [] oid did today c hc hm]
    exact ⟨rfl, by simp, rfl, fun h => absurd h hm⟩

/-- C9 (amended): `createOrder` with an unknown `customerId` surfaces the
NotFound error `"Cliente não encontrado"` with the state unchanged, while
`updatePaymentStatus` with an unknown order id and `markDebtAsPaid` with an
unknown debt id abort before any write but return silently, with no error
surfaced to the caller. -/
theorem c9_notfound_theorem (db : DB) (req : OrderReq) (items : List ItemReq)
    (oid did today : Nat) (orderId : Nat) (status : PaymentStatus)
    (now debtId : Nat) :
    (db.customers.find? (fun x => x.id == req.customerId) = none →
      createOrder db req items oid did today = (.error "Cliente não encontrado", db)) ∧
    (db.orders.find? (fun x => x.id == orderId) = none →
      updatePaymentStatus db orderId status now = db) ∧
    (db.debts.find? (fun x => x.id == debtId) = none →
      markDebtAsPaid db debtId now = db) :=
  ⟨fun h => createOrder_of_noCustomer db req items oid did today h,
   fun h => updatePaymentStatus_of_none db orderId status now h,
   fun h => markDebtAsPaid_of_none db debtId now h⟩

theorem map_key_ite {α : Type} (key : α → Nat) (p : α → Bool) (f : α → α)
    (hk : ∀ a, key (f a) = key a) (l : List α) :
    (l.map (fun a => if p a then f a else a)).map key = l.map key := by
  rw [List.map_map]
  apply List.map_congr_left
  intro a _
  by_cases h : p a = true
  · simp [h, hk]
  · simp [h]

theorem eq_of_key_nodup {α : Type} (key : α → Nat) {l : List α}
    (hn : (l.map key).Nodup) {a b : α} (ha : a ∈ l) (hb : b ∈ l)
    (hk : key a = key b) : a = b :=
  List.inj_on_of_nodup_map hn ha hb hk

theorem inv_recalculate (db : DB) (cid : Nat) (h : CoreInv db) :
    CoreInv (recalculateCustomerDebt db cid) :=
  ⟨h.1, fun o ho d hd hrel hfia => h.2 o ho d hd hrel hfia⟩

theorem mirror_of_orderStatus_update (db db' : DB) (oid : Nat)
    (ho : db'.orders = db.orders.map (fun (o : Order) =>
      if o.id == oid then { o with orderStatus := .cancelado } else o))
    (hd : ∀ d ∈ db'.debts, d ∈ db.debts)
    (hm : Mirror db) : Mirror db' := by
  intro o' ho' d' hd' hrel hfia
  rw [ho] at ho'
  obtain ⟨o, ho2, rfl⟩ := List.mem_map.mp ho'
  have hd2 := hd d' hd'
  by_cases h : (o.id == oid) = true
  · simp only [h, if_true] at hrel hfia ⊢
    exact hm o ho2 d' hd2 hrel hfia
  · simp only [h, Bool.false_eq_true, if_false] at hrel hfia ⊢
    exact hm o ho2 d' hd2 hrel hfia

theorem inv_cancelOrder (db : DB) (oid : Nat) (h : CoreInv db) :
    CoreInv (cancelOrder db oid) := by
  obtain ⟨⟨hw1, hw2, hw3⟩, hm⟩ := h
  cases hf : db.orders.find? (fun o => o.id == oid) with
  | none => rw [cancelOrder_of_none db oid hf]; exact ⟨⟨hw1, hw2, hw3⟩, hm⟩
  | some order =>
    have hcomp : (cancelOrder db oid).orders = db.orders.map (fun (o : Order) =>
          if o.id == oid then { o with orderStatus := .cancelado } else o) ∧
        ((cancelOrder db oid).debts = db.debts ∨
         (cancelOrder db oid).debts = db.debts.filter (fun d => !(d.orderId == oid))) := by
      by_cases hmf : order.paymentMethod = .fiado
      · cases hd : db.debts.find? (fun d => d.orderId == oid) with
        | none => rw [cancelOrder_fiado_nodebt db oid order hf hmf hd]; exact ⟨rfl, .inl rfl⟩
        | some debt =>
          by_cases hp : debt.isPaid = true
          · rw [cancelOrder_fiado_paid db oid order debt hf hmf hd hp]; exact ⟨rfl, .inl rfl⟩
          · rw [cancelOrder_fiado_unpaid db oid order debt hf hmf hd (by simpa using hp)]
            exact ⟨rfl, .inr rfl⟩
      · rw [cancelOrder_nonfiado db oid order hf hmf]; exact ⟨rfl, .inl rfl⟩
    have hwf' : WF (cancelOrder db oid) := by
      refine ⟨?_, ?_, ?_⟩
      · have hmk := map_key_ite (fun o : Order => o.id) (fun o => o.id == oid)
          (fun o => { o with orderStatus := OrderStatus.cancelado }) (fun a => rfl) db.orders
        simp only [] at hmk
        rw [hcomp.1, hmk]; exact hw1
      · rcases hcomp.2 with h2 | h2 <;> rw [h2]
        · exact hw2
        · exact hw2.sublist ((List.filter_sublist _).map _)
      · rcases hcomp.2 with h2 | h2 <;> rw [h2]
        · exact hw3
        · exact hw3.sublist ((List.filter_sublist _).map _)
    refine ⟨hwf', mirror_of_orderStatus_update db _ oid hcomp.1 ?_ hm⟩
    rcases hcomp.2 with h2 | h2 <;> rw [h2]
    · exact fun d hd => hd
    · exact fun d hd => List.mem_of_mem_filter hd

theorem inv_markDebtAsPaid (db : DB) (debtId now : Nat) (h : CoreInv db) :
    CoreInv (markDebtAsPaid db debtId now) := by
  obtain ⟨⟨hw1, hw2, hw3⟩, hm⟩ := h
  cases hf : db.debts.find? (fun d => d.id == debtId) with
  | none => rw [markDebtAsPaid_of_none db debtId now hf]; exact ⟨⟨hw1, hw2, hw3⟩, hm⟩
  | some debt =>
    by_cases hp : debt.isPaid = true
    · rw [markDebtAsPaid_of_paid db debtId now debt hf hp]; exact ⟨⟨hw1, hw2, hw3⟩, hm⟩
    · rw [markDebtAsPaid_of_unpaid db debtId now debt hf (by simpa using hp)]
      have hdmem : debt ∈ db.debts := List.mem_of_find?_eq_some hf
      have hdid : debt.id = debtId := by simpa using List.find?_some hf
      constructor
      · refine ⟨?_, ?_, ?_⟩
        · have hmk := map_key_ite (fun o : Order => o.id) (fun o => o.id == debt.orderId)
            (fun o => { o with paymentStatus := PaymentStatus.pago }) (fun a => rfl) db.orders
          simp only [] at hmk
          show ((db.orders.map _).map _).Nodup
          rw [hmk]; exact hw1
        · have hmk := map_key_ite (fun d : Debt => d.id) (fun d => d.id == debtId)
            (fun d => { d with isPaid := true, paidAt := some now }) (fun a => rfl) db.debts
          simp only [] at hmk
          show ((db.debts.map _).map _).Nodup
          rw [hmk]; exact hw2
        · have hmk := map_key_ite (fun d : Debt => d.orderId) (fun d => d.id == debtId)
            (fun d => { d with isPaid := true, paidAt := some now }) (fun a => rfl) db.debts
          simp only [] at hmk
          show ((db.debts.map _).map _).Nodup
          rw [hmk]; exact hw3
      · intro o' ho' d' hd' hrel hfia
        obtain ⟨o, ho2, rfl⟩ := List.mem_map.mp ho'
        obtain ⟨d0, hd2, rfl⟩ := List.mem_map.mp hd'
        by_cases hot : (o.id == debt.orderId) = true
        · by_cases hdt : (d0.id == debtId) = true
          · simp only [hot, hdt, if_true] at hrel hfia ⊢
          · -- d0 untouched but pairs with the touched order: d0 must be debt
            exfalso
            simp only [hot, hdt, Bool.false_eq_true, if_false, if_true] at hrel hfia
            have hoid : o.id = debt.orderId := by simpa using hot
            have : d0 = debt := eq_of_key_nodup (fun d => d.orderId) hw3 hd2 hdmem
              (by show d0.orderId = debt.orderId; rw [hrel]; exact hoid)
            rw [this, hdid] at hdt
            simp at hdt
        · by_cases hdt : (d0.id == debtId) = true
          · exfalso
            simp only [hot, hdt, Bool.false_eq_true, if_false, if_true] at hrel hfia
            have : d0 = debt := eq_of_key_nodup (fun d => d.id) hw2 hd2 hdmem
              (by show d0.id = debt.id; rw [hdid]; simpa using hdt)
            rw [this] at hrel
            rw [hrel] at hot
            simp at hot
          · simp only [hot, hdt, Bool.false_eq_true, if_false] at hrel hfia ⊢
            exact hm o ho2 d0 hd2 hrel hfia

theorem inv_updatePaymentStatus (db : DB) (id : Nat) (status : PaymentStatus)
    (now : Nat) (hs : status ≠ .cancelado) (h : CoreInv db) :
    CoreInv (updatePaymentStatus db id status now) := by
  obtain ⟨⟨hw1, hw2, hw3⟩, hm⟩ := h
  cases hf : db.orders.find? (fun o => o.id == id) with
  | none =>
    rw [updatePaymentStatus_of_none db id status now hf]; exact ⟨⟨hw1, hw2, hw3⟩, hm⟩
  | some order =>
    have homem : order ∈ db.orders := List.mem_of_find?_eq_some hf
    have hoid : order.id = id := by simpa using List.find?_some hf
    have hwo : ∀ st : PaymentStatus,
        ((db.orders.map (fun (o : Order) =>
          if o.id == id then { o with paymentStatus := st } else o)).map
            (fun o => o.id)).Nodup := by
      intro st
      have hmk := map_key_ite (fun o : Order => o.id) (fun o => o.id == id)
        (fun o => { o with paymentStatus := st }) (fun a => rfl) db.orders
      simp only [] at hmk
      rw [hmk]; exact hw1
    by_cases hmf : order.paymentMethod = .fiado
    · cases hd : db.debts.find? (fun d => d.orderId == id) with
      | none =>
        rw [updatePaymentStatus_fiado_nodebt db id status now order hf hmf hd]
        have hnone := List.find?_eq_none.mp hd
        refine ⟨⟨hwo status, hw2, hw3⟩, ?_⟩
        intro o' ho' d' hd' hrel hfia
        obtain ⟨o, ho2, rfl⟩ := List.mem_map.mp ho'
        by_cases hot : (o.id == id) = true
        · exfalso
          simp only [hot, if_true] at hrel
          have := hnone d' hd'
          simp only [beq_iff_eq] at this
          exact this (by rw [hrel]; simpa using hot)
        · simp only [hot, Bool.false_eq_true, if_false] at hrel hfia ⊢
          exact hm o ho2 d' hd' hrel hfia
      | some debt =>
        have hdmem : debt ∈ db.debts := List.mem_of_find?_eq_some hd
        have hdoid : debt.orderId = id := by simpa using List.find?_some hd
        have hwd : ∀ f : Debt → Debt,
            (∀ a : Debt, (f a).id = a.id ∧ (f a).orderId = a.orderId) →
            ((db.debts.map (fun (d : Debt) =>
              if d.id == debt.id then f d else d)).map (fun d => d.id)).Nodup ∧
            ((db.debts.map (fun (d : Debt) =>
              if d.id == debt.id then f d else d)).map (fun d => d.orderId)).Nodup := by
          intro f hfk
          constructor
          · have hmk := map_key_ite (fun d : Debt => d.id) (fun d => d.id == debt.id)
              f (fun a => (hfk a).1) db.debts
            simp only [] at hmk
            rw [hmk]; exact hw2
          · have hmk := map_key_ite (fun d : Debt => d.orderId) (fun d => d.id == debt.id)
              f (fun a => (hfk a).2) db.debts
            simp only [] at hmk
            rw [hmk]; exact hw3
        by_cases hq1 : status = .pago ∧ debt.isPaid = false
        · obtain ⟨rfl, hq⟩ := hq1
          rw [updatePaymentStatus_fiado_pago_unpaid db id now order debt hf hmf hd hq]
          obtain ⟨hwd1, hwd2⟩ := hwd (fun d => { d with isPaid := true, paidAt := some now })
            (fun a => ⟨rfl, rfl⟩)
          refine ⟨⟨hwo .pago, hwd1, hwd2⟩, ?_⟩
          intro o' ho' d' hd' hrel hfia
          obtain ⟨o, ho2, rfl⟩ := List.mem_map.mp ho'
          obtain ⟨d0, hd2, rfl⟩ := List.mem_map.mp hd'
          by_cases hot : (o.id == id) = true
          · by_cases hdt : (d0.id == debt.id) = true
            · simp only [hot, hdt, if_true] at hrel hfia ⊢
            · exfalso
              simp only [hot, hdt, Bool.false_eq_true, if_false, if_true] at hrel
              have hd0 : d0 = debt := eq_of_key_nodup (fun d => d.orderId) hw3 hd2 hdmem
                (by show d0.orderId = debt.orderId
                    rw [hrel, hdoid]; simpa using hot)
              rw [hd0] at hdt
              simp at hdt
          · by_cases hdt : (d0.id == debt.id) = true
            · exfalso
              simp only [hot, hdt, Bool.false_eq_true, if_false, if_true] at hrel
              have hd0 : d0 = debt := eq_of_key_nodup (fun d => d.id) hw2 hd2 hdmem
                (by show d0.id = debt.id; simpa using hdt)
              rw [hd0, hdoid] at hrel
              rw [← hrel] at hot
              simp at hot
            · simp only [hot, hdt, Bool.false_eq_true, if_false] at hrel hfia ⊢
              exact hm o ho2 d0 hd2 hrel hfia
        · by_cases hq2 : status = .pendente ∧ debt.isPaid = true
          · obtain ⟨rfl, hq⟩ := hq2
            rw [updatePaymentStatus_fiado_pendente_paid db id now order debt hf hmf hd hq]
            obtain ⟨hwd1, hwd2⟩ := hwd (fun d => { d with isPaid := false, paidAt := none })
              (fun a => ⟨rfl, rfl⟩)
            refine ⟨⟨hwo .pendente, hwd1, hwd2⟩, ?_⟩
            intro o' ho' d' hd' hrel hfia
            obtain ⟨o, ho2, rfl⟩ := List.mem_map.mp ho'
            obtain ⟨d0, hd2, rfl⟩ := List.mem_map.mp hd'
            by_cases hot : (o.id == id) = true
            · by_cases hdt : (d0.id == debt.id) = true
              · simp only [hot, hdt, if_true] at hrel hfia ⊢
                simp
              · exfalso
                simp only [hot, hdt, Bool.false_eq_true, if_false, if_true] at hrel
                have hd0 : d0 = debt := eq_of_key_nodup (fun d => d.orderId) hw3 hd2 hdmem
                  (by show d0.orderId = debt.orderId
                      rw [hrel, hdoid]; simpa using hot)
                rw [hd0] at hdt
                simp at hdt
            · by_cases hdt : (d0.id == debt.id) = true
              · exfalso
                simp only [hot, hdt, Bool.false_eq_true, if_false, if_true] at hrel
                have hd0 : d0 = debt := eq_of_key_nodup (fun d => d.id) hw2 hd2 hdmem
                  (by show d0.id = debt.id; simpa using hdt)
                rw [hd0, hdoid] at hrel
                rw [← hrel] at hot
                simp at hot
              · simp only [hot, hdt, Bool.false_eq_true, if_false] at hrel hfia ⊢
                exact hm o ho2 d0 hd2 hrel hfia
          · rw [updatePaymentStatus_fiado_frozen db id status now order debt hf hmf hd hq1 hq2]
            refine ⟨⟨hwo status, hw2, hw3⟩, ?_⟩
            intro o' ho' d' hd' hrel hfia
            obtain ⟨o, ho2, rfl⟩ := List.mem_map.mp ho'
            by_cases hot : (o.id == id) = true
            · simp only [hot, if_true] at hrel hfia ⊢
              have hd0 : d' = debt := eq_of_key_nodup (fun d => d.orderId) hw3 hd' hdmem
                (by show d'.orderId = debt.orderId
                    rw [hrel, hdoid]; simpa using hot)
              rw [hd0]
              cases status with
              | pendente =>
                have : ¬debt.isPaid = true := fun hh => hq2 ⟨rfl, hh⟩
                simp [this]
              | pago =>
                have : ¬debt.isPaid = false := fun hh => hq1 ⟨rfl, hh⟩
                simp only [Bool.not_eq_false] at this
                simp [this]
              | cancelado => exact absurd rfl hs
            · simp only [hot, Bool.false_eq_true, if_false] at hrel hfia ⊢
              exact hm o ho2 d' hd' hrel hfia
    · have hcar : (updatePaymentStatus db id status now).orders
          = db.orders.map (fun (o : Order) =>
              if o.id == id then { o with paymentStatus := status } else o) ∧
        (updatePaymentStatus db id status now).debts = db.debts := by
        by_cases h1 : status = .pago ∧ order.paymentStatus ≠ .pago
        · obtain ⟨rfl, hprev⟩ := h1
          rw [updatePaymentStatus_nonfiado_pago db id now order hf hmf hprev]
          exact ⟨rfl, rfl⟩
        · by_cases h2 : status = .pendente ∧ order.paymentStatus = .pago
          · obtain ⟨rfl, hprev⟩ := h2
            rw [updatePaymentStatus_nonfiado_revert db id now order hf hmf hprev]
            exact ⟨rfl, rfl⟩
          · rw [updatePaymentStatus_nonfiado_frozen db id status now order hf hmf h1 h2]
            exact ⟨rfl, rfl⟩
      constructor
      · refine ⟨?_, ?_, ?_⟩
        · rw [hcar.1]; exact hwo status
        · rw [hcar.2]; exact hw2
        · rw [hcar.2]; exact hw3
      · intro o' ho' d' hd' hrel hfia
        rw [hcar.1] at ho'
        rw [hcar.2] at hd'
        obtain ⟨o, ho2, rfl⟩ := List.mem_map.mp ho'
        by_cases hot : (o.id == id) = true
        · exfalso
          have ho3 : o = order := eq_of_key_nodup (fun x => x.id) hw1 ho2 homem
            (by show o.id = order.id; rw [hoid]; simpa using hot)
          simp only [hot, if_true] at hfia
          rw [ho3] at hfia
          exact hmf hfia
        · simp only [hot, Bool.false_eq_true, if_false] at hrel hfia ⊢
          exact hm o ho2 d' hd' hrel hfia

theorem nodup_append_singleton {l : List Nat} {a : Nat}
    (h : l.Nodup) (ha : a ∉ l) : (l ++ [a]).Nodup := by
  simp [List.nodup_append, h, ha]

theorem inv_createOrder (db : DB) (req : OrderReq) (items : List ItemReq)
    (oid did today : Nat)
    (hoid : ∀ o ∈ db.orders, o.id ≠ oid)
    (hdo : ∀ d ∈ db.debts, d.orderId ≠ oid)
    (hdid : ∀ d ∈ db.debts, d.id ≠ did)
    (h : CoreInv db) :
    CoreInv (createOrder db req items oid did today).2 := by
  obtain ⟨⟨hw1, hw2, hw3⟩, hm⟩ := h
  cases hc : db.customers.find? (fun x => x.id == req.customerId) with
  | none =>
    rw [createOrder_of_noCustomer db req items oid did today hc]
    exact ⟨⟨hw1, hw2, hw3⟩, hm⟩
  | some c =>
    have hno : oid ∉ db.orders.map (fun o => o.id) := by
      intro hmem
      obtain ⟨o, ho, hoe⟩ := List.mem_map.mp hmem
      exact hoid o ho hoe
    have hnd : did ∉ db.debts.map (fun d => d.id) := by
      intro hmem
      obtain ⟨d, hdm, hde⟩ := List.mem_map.mp hmem
      exact hdid d hdm hde
    have hndo : oid ∉ db.debts.map (fun d => d.orderId) := by
      intro hmem
      obtain ⟨d, hdm, hde⟩ := List.mem_map.mp hmem
      exact hdo d hdm hde
    by_cases hmf : req.paymentMethod = .fiado
    · rw [createOrder_fiado_eq db req items oid did today c hc hmf]
      constructor
      · refine ⟨?_, ?_, ?_⟩
        · simp only [List.map_append, List.map_cons, List.map_nil]
          exact nodup_append_singleton hw1 hno
        · simp only [List.map_append, List.map_cons, List.map_nil]
          exact nodup_append_singleton hw2 hnd
        · simp only [List.map_append, List.map_cons, List.map_nil]
          exact nodup_append_singleton hw3 hndo
      · intro o' ho' d' hd' hrel hfia
        rcases List.mem_append.mp ho' with ho2 | ho2
        · rcases List.mem_append.mp hd' with hd2 | hd2
          · exact hm o' ho2 d' hd2 hrel hfia
          · exfalso
            have : d' = { id := did, customerId := req.customerId,
                            orderId := oid, amount := req.totalAmount,
                            isPaid := false, paidAt := none } := by
              simpa using hd2
            rw [this] at hrel
            exact hoid o' ho2 hrel.symm
        · have ho3 : o' = { id := oid, customerId := req.customerId,
                              orderNumber := getNextOrderNumber db today,
                              totalAmount := req.totalAmount,
                              paymentMethod := req.paymentMethod,
                              paymentStatus := .pendente,
                              orderStatus := .aguardando_pagamento,
                              createdAt := req.createdAt } := by simpa using ho2
          rcases List.mem_append.mp hd' with hd2 | hd2
          · exfalso
            rw [ho3] at hrel
            exact hdo d' hd2 hrel
          · have hd3 : d' = { id := did, customerId := req.customerId,
                                orderId := oid, amount := req.totalAmount,
                                isPaid := false, paidAt := none } := by
              simpa using hd2
            rw [ho3, hd3]
            simp
    · rw [createOrder_nonfiado_eq db req items oid did today c hc hmf]
      constructor
      · refine ⟨?_, hw2, hw3⟩
        simp only [List.map_append, List.map_cons, List.map_nil]
        exact nodup_append_singleton hw1 hno
      · intro o' ho' d' hd' hrel hfia
        rcases List.mem_append.mp ho' with ho2 | ho2
        · exact hm o' ho2 d' hd' hrel hfia
        · exfalso
          have ho3 : o' = { id := oid, customerId := req.customerId,
                              orderNumber := getNextOrderNumber db today,
                              totalAmount := req.totalAmount,
                              paymentMethod := req.paymentMethod,
                              paymentStatus := .pendente,
                              orderStatus := .aguardando_pagamento,
                              createdAt := req.createdAt } := by simpa using ho2
          rw [ho3] at hrel
          exact hdo d' hd' hrel

theorem stepNC_preserves {db db' : DB} (h : StepNC db db') (hinv : CoreInv db) :
    CoreInv db' := by
  cases h with
  | create req items oid did today hoid hdo hdid =>
    exact inv_createOrder db req items oid did today hoid hdo hdid hinv
  | payment id status now hs => exact inv_updatePaymentStatus db id status now hs hinv
  | markPaid debtId now => exact inv_markDebtAsPaid db debtId now hinv
  | cancel orderId => exact inv_cancelOrder db orderId hinv
  | recalc customerId => exact inv_recalculate db customerId hinv

/-- C1 (amended): from any store satisfying the autoincrement
well-formedness and the debt mirror, every state reachable by the core
operations — with `updatePaymentStatus` restricted to the targets
`pendente` and `pago` — satisfies the debt mirror: a pay-later order is
`pago` exactly when its debt row is paid.  The restriction is forced by the
counterexample: a `cancelado` target leaves a paid debt mirrored against a
non-`pago` order. -/
theorem c1_mirror_theorem (db db' : DB) (hwf : WF db) (hmir : Mirror db)
    (hr : ReachableNC db db') : Mirror db' := by
  have : CoreInv db' := by
    induction hr with
    | refl => exact ⟨hwf, hmir⟩
    | tail _ hstep ih => exact stepNC_preserves hstep ih
  exact this.2

/-- C1 witness: the amended theorem applied to the concrete two-step run
`createOrder` then `updatePaymentStatus(1, pago)` from `db0`. -/
theorem c1_mirror_witness : Mirror dbPaid := by
  have h0 : WF db0 := by decide
  have h1 : Mirror db0 := by decide
  have hstep1 : StepNC db0 dbCreated :=
    StepNC.create db0 reqFiado [] 1 1 0 (by decide) (by decide) (by decide)
  have hstep2 : StepNC dbCreated dbPaid :=
    StepNC.payment dbCreated 1 .pago 20 (by decide)
  exact c1_mirror_theorem db0 dbPaid h0 h1
    (Relation.ReflTransGen.tail (Relation.ReflTransGen.single hstep1) hstep2)

theorem crc16Fold_append (crc : Nat) (l1 l2 : List Char) :
    crc16Fold crc (l1 ++ l2) = crc16Fold (crc16Fold crc l1) l2 := by
  unfold crc16Fold
  rw [List.foldl_append]

theorem calculateCRC16_lt (s : String) : calculateCRC16 s < 65536 := by
  unfold calculateCRC16
  apply Nat.xor_lt_two_pow (n := 16)
  · exact Nat.mod_lt _ (by norm_num)
  · norm_num

theorem hexDigitUpper_mem (n : Nat) : hexDigitUpper n ∈ "0123456789ABCDEF".data := by
  unfold hexDigitUpper
  by_cases h : n < ("0123456789ABCDEF".data).length
  · rw [List.getD_eq_getElem _ _ h]
    exact List.getElem_mem h
  · rw [List.getD_eq_default _ _ (by omega)]
    decide

theorem toHexUpperAux_mem (fuel n : Nat) :
    ∀ c ∈ toHexUpperAux fuel n, c ∈ "0123456789ABCDEF".data := by
  induction fuel generalizing n with
  | zero =>
    intro c hc
    simp only [toHexUpperAux, List.mem_singleton] at hc
    rw [hc]; exact hexDigitUpper_mem n
  | succ fuel ih =>
    intro c hc
    simp only [toHexUpperAux] at hc
    by_cases h : n < 16
    · rw [if_pos h] at hc
      simp only [List.mem_singleton] at hc
      rw [hc]; exact hexDigitUpper_mem n
    · rw [if_neg h] at hc
      rcases List.mem_append.mp hc with h2 | h2
      · exact ih (n / 16) c h2
      · simp only [List.mem_singleton] at h2
        rw [h2]; exact hexDigitUpper_mem (n % 16)

theorem toHexUpperAux_length (fuel n k : Nat) (hk : 0 < k) (hn : n < 16 ^ k) :
    (toHexUpperAux fuel n).length ≤ k := by
  induction fuel generalizing n k with
  | zero => simpa [toHexUpperAux] using hk
  | succ fuel ih =>
    simp only [toHexUpperAux]
    by_cases h : n < 16
    · simpa [h] using hk
    · rw [if_neg h]
      have hk2 : 2 ≤ k := by
        rcases Nat.lt_or_ge k 2 with hlt | hge
        · exfalso
          interval_cases k
          exact h (by simpa using hn)
        · exact hge
      have hnd : n / 16 < 16 ^ (k - 1) := by
        apply Nat.div_lt_of_lt_mul
        calc n < 16 ^ k := hn
        _ = 16 ^ (k - 1) * 16 := by
              rw [← pow_succ]
              congr 1
              omega
        _ = 16 * 16 ^ (k - 1) := by ring
      have := ih (n / 16) (k - 1) (by omega) hnd
      simp only [List.length_append, List.length_singleton]
      omega

theorem padStart4_length (s : String) (h : s.data.length ≤ 4) :
    (padStart4 s).data.length = 4 := by
  unfold padStart4
  simp only [List.length_append, List.length_replicate]
  omega

theorem padStart4_mem (s : String) (hs : ∀ c ∈ s.data, c ∈ "0123456789ABCDEF".data) :
    ∀ c ∈ (padStart4 s).data, c ∈ "0123456789ABCDEF".data := by
  intro c hc
  unfold padStart4 at hc
  simp only [] at hc
  rcases List.mem_append.mp hc with h2 | h2
  · have := List.eq_of_mem_replicate h2
    rw [this]; decide
  · exact hs c h2

theorem replaceFirstL_at_end (pat repl pfx : List Char) (hne : pat ≠ [])
    (h : ∀ i < pfx.length, ¬ pat.isPrefixOf ((pfx ++ pat).drop i)) :
    replaceFirstL pat repl (pfx ++ pat) = pfx ++ repl := by
  induction pfx with
  | nil =>
    cases pat with
    | nil => exact absurd rfl hne
    | cons p ps =>
      simp only [List.nil_append, replaceFirstL]
      rw [if_pos (List.isPrefixOf_iff_prefix.mpr (List.prefix_refl _))]
      simp
  | cons c rest ih =>
    have h0 : ¬ pat.isPrefixOf ((c :: rest ++ pat).drop 0) := by
      have := h 0 (by simp)
      simpa using this
    simp only [List.cons_append, replaceFirstL]
    rw [if_neg (by simpa using h0)]
    congr 1
    apply ih
    intro i hi
    have := h (i + 1) (by simpa using Nat.succ_lt_succ hi)
    simpa using this

theorem toHexUpper_data_length (n : Nat) (h : n < 65536) :
    (toHexUpper n).data.length ≤ 4 :=
  toHexUpperAux_length n n 4 (by norm_num) (by norm_num; omega)

/-- C7 (amended): for every input whose payload-with-placeholder contains
the four bytes `"6304"` only as its trailing CRC placeholder, the string
returned by `generatePixPayload` ends with exactly four uppercase zero-padded
hexadecimal digits equal to the CRC16-CCITT (polynomial 0x1021, initial value
0xFFFF, bit-by-bit MSB-first over every character's byte value, output XORed
with 0xFFFF) of the same string with those four digits removed.  The
hypothesis is forced by the counterexample: `replace` substitutes the first
`"6304"` occurrence, so a pix key containing `"6304"` breaks the claim. -/
theorem c7_crc_roundtrip_theorem (data : PixData) (genId : String)
    (h : ∀ i < (pixPayloadBody data genId).data.length,
      ¬ ("6304".data).isPrefixOf
        (((pixPayloadBody data genId).data ++ "6304".data).drop i)) :
    (generatePixPayload data genId).data.drop
        ((generatePixPayload data genId).data.length - 4)
      = (padStart4 (toHexUpper (calculateCRC16 (String.mk
          ((generatePixPayload data genId).data.take
            ((generatePixPayload data genId).data.length - 4)))))).data ∧
    ∀ ch ∈ (generatePixPayload data genId).data.drop
        ((generatePixPayload data genId).data.length - 4),
      ch ∈ "0123456789ABCDEF".data := by
  have hlt : calculateCRC16 (pixPayloadBody data genId ++ "6304") < 65536 :=
    calculateCRC16_lt _
  have hlen4 : (padStart4 (toHexUpper
      (calculateCRC16 (pixPayloadBody data genId ++ "6304")))).data.length = 4 :=
    padStart4_length _ (toHexUpper_data_length _ hlt)
  have hout : (generatePixPayload data genId).data
      = (pixPayloadBody data genId).data ++ "6304".data ++
        (padStart4 (toHexUpper
          (calculateCRC16 (pixPayloadBody data genId ++ "6304")))).data := by
    show (jsReplaceFirst (pixPayloadBody data genId ++ "6304") "6304"
      ("6304" ++ padStart4 (toHexUpper
        (calculateCRC16 (pixPayloadBody data genId ++ "6304"))))).data = _
    unfold jsReplaceFirst
    show replaceFirstL "6304".data _ (pixPayloadBody data genId ++ "6304").data = _
    rw [String.data_append, String.data_append]
    rw [replaceFirstL_at_end _ _ _ (by decide) h]
    rw [List.append_assoc]
  have hnlen : (generatePixPayload data genId).data.length
      = (pixPayloadBody data genId).data.length + 8 := by
    rw [hout]
    simp only [List.length_append, hlen4]
    norm_num
  have hsub : (generatePixPayload data genId).data.length - 4
      = ((pixPayloadBody data genId).data ++ "6304".data).length := by
    rw [hnlen, List.length_append, show ("6304".data).length = 4 from rfl]
    omega
  have hdrop : (generatePixPayload data genId).data.drop
      ((generatePixPayload data genId).data.length - 4)
      = (padStart4 (toHexUpper
        (calculateCRC16 (pixPayloadBody data genId ++ "6304")))).data := by
    rw [hsub, hout]
    exact List.drop_left _ _
  have htake : (generatePixPayload data genId).data.take
      ((generatePixPayload data genId).data.length - 4)
      = (pixPayloadBody data genId).data ++ "6304".data := by
    rw [hsub, hout]
    exact List.take_left _ _
  have hcrceq : calculateCRC16 (String.mk
      ((generatePixPayload data genId).data.take
        ((generatePixPayload data genId).data.length - 4)))
      = calculateCRC16 (pixPayloadBody data genId ++ "6304") := by
    rw [htake]
    show (crc16Fold 0xFFFF ((pixPayloadBody data genId).data ++ "6304".data)
      % 0x10000) ^^^ 0xFFFF = _
    unfold calculateCRC16
    rw [String.data_append]
  constructor
  · rw [hdrop, hcrceq]
  · intro ch hch
    rw [hdrop] at hch
    refine padStart4_mem _ ?_ ch hch
    intro c hc
    exact toHexUpperAux_mem _ _ c hc

/-- C7 witness: the round-trip theorem applied to the Scenario E input
(amount 18.00), whose payload has no stray `"6304"` bytes. -/
theorem c7_crc_roundtrip_witness :
    (generatePixPayload pixDataW "").data.drop
        ((generatePixPayload pixDataW "").data.length - 4)
      = (padStart4 (toHexUpper (calculateCRC16 (String.mk
          ((generatePixPayload pixDataW "").data.take
            ((generatePixPayload pixDataW "").data.length - 4)))))).data ∧
    ∀ ch ∈ (generatePixPayload pixDataW "").data.drop
        ((generatePixPayload pixDataW "").data.length - 4),
      ch ∈ "0123456789ABCDEF".data :=
  c7_crc_roundtrip_theorem pixDataW "" (by decide)

/-- C8: the tag-62 additional-data field the source emits for transaction id
`"ORDER1"` (the id the PIX route supplies) is `"6207060506ORDER1"` — a
hardcoded outer length `07` followed by a duplicated id length — while the
encoding the claim and the EMVCo layout require is `"62100506ORDER1"` (outer
length `10` = id length + 4, single nested `05` header); the payload built by
the source contains the former and not the latter. -/
theorem c8_tag62_theorem :
    additionalDataField "ORDER1" = "6207060506ORDER1" ∧
    specAdditionalDataField "ORDER1" = "62100506ORDER1" ∧
    additionalDataField "ORDER1" ≠ specAdditionalDataField "ORDER1" ∧
    containsSubstr (additionalDataField "ORDER1")
      (pixPayloadBody ⟨"k", "", "N", "C", 0, some "ORDER1"⟩ "") = true ∧
    containsSubstr (specAdditionalDataField "ORDER1")
      (pixPayloadBody ⟨"k", "", "N", "C", 0, some "ORDER1"⟩ "") = false := by
  refine ⟨rfl, rfl, by decide, by decide, by decide⟩

set_option maxRecDepth 20000 in
/-- C7 counterexample: with pix key `"6304"`, `replace` hits the key bytes
inside the merchant-account field instead of the trailing placeholder, so the
output ends with the untouched placeholder `"6304"`, which is not the CRC of
the rest of the string. -/
theorem c7_crc_counterexample :
    (generatePixPayload pixDataCE "").data.drop
        ((generatePixPayload pixDataCE "").data.length - 4)
      ≠ (padStart4 (toHexUpper (calculateCRC16 (String.mk
          ((generatePixPayload pixDataCE "").data.take
            ((generatePixPayload pixDataCE "").data.length - 4)))))).data := by
  have hbody : pixPayloadBody pixDataCE ""
      = "00020126260014br.gov.bcb.pix010463045204000053039865802BR5901N6001C6207010501T" := by
    rfl
  have hc0 : crc16Fold 0xFFFF "00020126".data = 2191958672 := by rfl
  have hc1 : crc16Fold 2191958672 "260014br".data = 2393569240 := by rfl
  have hc2 : crc16Fold 2393569240 ".gov.bcb".data = 770256875 := by rfl
  have hc3 : crc16Fold 770256875 ".pix0104".data = 1929721105 := by rfl
  have hc4 : crc16Fold 1929721105 "63045204".data = 1576739887 := by rfl
  have hc5 : crc16Fold 1576739887 "00005303".data = 1833346005 := by rfl
  have hc6 : crc16Fold 1833346005 "9865802B".data = 3263711626 := by rfl
  have hc7 : crc16Fold 3263711626 "R5901N60".data = 356990359 := by rfl
  have hc8 : crc16Fold 356990359 "01C62070".data = 2056321440 := by rfl
  have hc9 : crc16Fold 2056321440 "10501T63".data = 3779696698 := by rfl
  have hc10 : crc16Fold 3779696698 "04".data = 2450355481 := by rfl
  have hsplit : ("00020126260014br.gov.bcb.pix010463045204000053039865802BR5901N6001C6207010501T"
        ++ "6304").data
      = "00020126".data ++ ("260014br".data ++ (".gov.bcb".data ++ (".pix0104".data ++ ("63045204".data ++ ("00005303".data ++ ("9865802B".data ++ ("R5901N60".data ++ ("01C62070".data ++ ("10501T63".data ++ ("04".data)))))))))) := by rfl
  have hcrc : calculateCRC16
      ("00020126260014br.gov.bcb.pix010463045204000053039865802BR5901N6001C6207010501T"
        ++ "6304") = 35558 := by
    unfold calculateCRC16
    rw [hsplit, crc16Fold_append, hc0, crc16Fold_append, hc1, crc16Fold_append, hc2, crc16Fold_append, hc3, crc16Fold_append, hc4, crc16Fold_append, hc5, crc16Fold_append, hc6, crc16Fold_append, hc7, crc16Fold_append, hc8, crc16Fold_append, hc9, hc10]
    rfl
  have hout : generatePixPayload pixDataCE ""
      = "00020126260014br.gov.bcb.pix010463048AE65204000053039865802BR5901N6001C6207010501T6304" := by
    show jsReplaceFirst (pixPayloadBody pixDataCE "" ++ "6304") "6304"
      ("6304" ++ padStart4 (toHexUpper
        (calculateCRC16 (pixPayloadBody pixDataCE "" ++ "6304")))) = _
    rw [hbody, hcrc]
    rfl
  rw [hout]
  have htake : String.mk
      (("00020126260014br.gov.bcb.pix010463048AE65204000053039865802BR5901N6001C6207010501T6304" : String).data.take
        (("00020126260014br.gov.bcb.pix010463048AE65204000053039865802BR5901N6001C6207010501T6304" : String).data.length - 4))
      = "00020126260014br.gov.bcb.pix010463048AE65204000053039865802BR5901N6001C6207010501T" := by
    rfl
  rw [htake]
  have hp0 : crc16Fold 0xFFFF "00020126".data = 2191958672 := by rfl
  have hp1 : crc16Fold 2191958672 "260014br".data = 2393569240 := by rfl
  have hp2 : crc16Fold 2393569240 ".gov.bcb".data = 770256875 := by rfl
  have hp3 : crc16Fold 770256875 ".pix0104".data = 1929721105 := by rfl
  have hp4 : crc16Fold 1929721105 "63048AE6".data = 1640581919 := by rfl
  have hp5 : crc16Fold 1640581919 "52040000".data = 3890207247 := by rfl
  have hp6 : crc16Fold 3890207247 "53039865".data = 1971787250 := by rfl
  have hp7 : crc16Fold 1971787250 "802BR590".data = 3088446853 := by rfl
  have hp8 : crc16Fold 3088446853 "1N6001C6".data = 2258978803 := by rfl
  have hp9 : crc16Fold 2258978803 "20701050".data = 1717432013 := by rfl
  have hp10 : crc16Fold 1717432013 "1T".data = 3825014665 := by rfl
  have hsplit2 : ("00020126260014br.gov.bcb.pix010463048AE65204000053039865802BR5901N6001C6207010501T" : String).data
      = "00020126".data ++ ("260014br".data ++ (".gov.bcb".data ++ (".pix0104".data ++ ("63048AE6".data ++ ("52040000".data ++ ("53039865".data ++ ("802BR590".data ++ ("1N6001C6".data ++ ("20701050".data ++ ("1T".data)))))))))) := by rfl
  have hcrc2 : calculateCRC16
      "00020126260014br.gov.bcb.pix010463048AE65204000053039865802BR5901N6001C6207010501T"
      = 59510 := by
    unfold calculateCRC16
    rw [hsplit2, crc16Fold_append, hp0, crc16Fold_append, hp1, crc16Fold_append, hp2, crc16Fold_append, hp3, crc16Fold_append, hp4, crc16Fold_append, hp5, crc16Fold_append, hp6, crc16Fold_append, hp7, crc16Fold_append, hp8, crc16Fold_append, hp9, hp10]
    rfl
  rw [hcrc2]
  decide

/-- C1 counterexample: the state reached from `db0` by `createOrder`,
`updatePaymentStatus(1, pago)`, `updatePaymentStatus(1, cancelado)` — all
core operations the claim quantifies over — holds a pay-later order whose
debt row has `isPaid = true` while the order's `paymentStatus` is not
`pago`, refuting the mirror claim as stated. -/
theorem c1_mirror_counterexample :
    Relation.ReflTransGen StepAll db0 dbCancelled ∧
    ∃ o ∈ dbCancelled.orders, ∃ d ∈ dbCancelled.debts,
      d.orderId = o.id ∧ o.paymentMethod = .fiado ∧ d.isPaid = true ∧
      o.paymentStatus ≠ .pago := by
  constructor
  · exact Relation.ReflTransGen.tail
      (Relation.ReflTransGen.tail
        (Relation.ReflTransGen.single
          (StepAll.create db0 reqFiado [] 1 1 0 (by decide) (by decide) (by decide)))
        (StepAll.payment dbCreated 1 .pago 20))
      (StepAll.payment dbPaid 1 .cancelado 30)
  · decide

/-- C2 witness: the convergence theorem applied to the concrete state
`dbCreated` with its order, debt and customer rows. -/
theorem c2_convergence_witness :
    updatePaymentStatus dbCreated 1 .pago 20 = markDebtAsPaid dbCreated 1 20 :=
  (c2_convergence_theorem dbCreated 1 20 orderRec debtRec custRec
    (by decide) (by decide) (by decide) (by decide) (by decide) (by decide)
    (by decide)).1

/-- C4 counterexample: on a drifted store whose customer records
`totalDebt = 5.00` against an unpaid 11.00 debt, `cancelOrder` leaves the
customer at `-6.00` — not the zero the claim's "floored at zero" asserts. -/
theorem c4_cancel_counterexample :
    ∃ c ∈ (cancelOrder dbDrift 1).customers,
      c.id = 1 ∧ c.totalDebt = -600 ∧ c.totalDebt ≠ max (500 - 1100) 0 := by
  decide

/-- C4 witness: the amended theorem applied to `dbCreated`, showing the
debt row deleted and the plain subtraction on the customer. -/
theorem c4_cancel_witness :
    (cancelOrder dbCreated 1).debts
        = dbCreated.debts.filter (fun x => !(x.orderId == 1)) ∧
    (cancelOrder dbCreated 1).customers
        = dbCreated.customers.map (fun (c : Customer) =>
            if c.id == orderRec.customerId then
              { c with totalDebt := c.totalDebt - orderRec.totalAmount } else c) :=
  ((c4_cancel_theorem dbCreated 1 orderRec (by decide) (by decide)).2.2.1 debtRec
    (by decide)).1 (by decide)

/-- C5 witness: the postcondition theorem applied to `db0` and the 11.00
pay-later request. -/
theorem c5_create_witness :
    (createOrder db0 reqFiado [] 1 1 0).1 = .ok 1 ∧
    (createOrder db0 reqFiado [] 1 1 0).2.debts = db0.debts ++ [debtRec] ∧
    (createOrder db0 reqFiado [] 1 1 0).2.customers
      = db0.customers.map (fun (x : Customer) =>
          if x.id == reqFiado.customerId then
            { x with totalDebt := x.totalDebt + reqFiado.totalAmount } else x) := by
  have h := c5_create_theorem db0 reqFiado [] 1 1 0
    ⟨1, "Ana", "11999990000", 0, 0⟩ (by decide)
  exact ⟨h.1, (h.2.2.1 rfl).1, (h.2.2.1 rfl).2⟩

/-- C9 counterexample: with no order 99 and no debt 99 in the store,
`updatePaymentStatus` and `markDebtAsPaid` return the state unchanged and
raise nothing — they are silent no-ops, not NotFound errors as the claim
states. -/
theorem c9_notfound_counterexample :
    updatePaymentStatus db0 99 .pago 0 = db0 ∧ markDebtAsPaid db0 99 0 = db0 := by
  decide

/-- C9 witness: the amended theorem applied to `db0` with unknown customer,
order and debt identifiers. -/
theorem c9_notfound_witness :
    createOrder db0 { customerId := 99, totalAmount := 500, paymentMethod := .pix,
                      paymentStatus := .pendente, createdAt := 0 } [] 5 5 0
      = (.error "Cliente não encontrado", db0) ∧
    updatePaymentStatus db0 77 .pago 3 = db0 ∧
    markDebtAsPaid db0 88 3 = db0 := by
  have h := c9_notfound_theorem db0 { customerId := 99, totalAmount := 500,
                                       paymentMethod := .pix, paymentStatus := .pendente,
                                       createdAt := 0 } [] 5 5 0 77 .pago 3 88
  exact ⟨h.1 (by decide), h.2.1 (by decide), h.2.2 (by decide)⟩

/-- C10 witness: the empty-items theorem applied to `db0` and the 11.00
pay-later request. -/
theorem c10_empty_items_witness :
    (createOrder db0 reqFiado [] 1 1 0).1 = .ok 1 ∧
    (createOrder db0 reqFiado [] 1 1 0).2.orderItems = db0.orderItems := by
  have h := c10_empty_items_theorem db0 reqFiado 1 1 0
    ⟨1, "Ana", "11999990000", 0, 0⟩ (by decide)
  exact ⟨h.1, h.2.1⟩

end Cantina
